import Mathlib

/-!
Verification of the orchestration script `reproduce/ilharco2023editing.py`.

The script selects a list of model identifiers from a hardcoded dataset
name, builds an initial pipeline from the base model, merges the models,
saves the merged weights, evaluates the merged pipeline, and writes a flat
JSON record. We embed the data (JSON-like values, Python dict semantics)
and the control flow (an event trace parametrised by an environment of
external collaborator results) and prove the spec claims about them.
-/

namespace IlharcoEditing

/-- JSON-like values as they occur in the script's record: strings, numbers
(modelled as rationals) and nested objects. -/
inductive JValue where
  | str (s : String)
  | num (q : ℚ)
  | obj (fields : List (String × JValue))

/-- A Python dict with string keys, as an insertion-ordered association
list with no duplicate keys (maintained by `dictInsert`). -/
abbrev JDict := List (String × JValue)

/-- Python dict assignment `d[k] = v`: an existing key keeps its position
and gets the new value; a new key is appended at the end. -/
def dictInsert (d : JDict) (k : String) (v : JValue) : JDict :=
  match d with
  | [] => [(k, v)]
  | (k', v') :: rest =>
    if k' = k then (k, v) :: rest else (k', v') :: dictInsert rest k v

/-- Successive Python dict assignments, left to right; this is the meaning
of a dict literal and of the `**`-spread inside one. -/
def dictInsertMany (d : JDict) (kvs : JDict) : JDict :=
  kvs.foldl (fun acc kv => dictInsert acc kv.1 kv.2) d

/-- Python dict lookup `d[k]`. -/
def dictLookup (d : JDict) (k : String) : Option JValue :=
  match d with
  | [] => none
  | (k', v) :: rest => if k' = k then some v else dictLookup rest k

/-- The hardcoded dataset constant of the script (line 7). -/
def DATASET : String := "rte"

/-- The hardcoded split constant of the script (line 8). -/
def SPLIT : String := "validation"

/-- The model identifier list of the `DATASET == 'rte'` branch (line 11). -/
def rteModels : List String :=
  ["google-bert/bert-base-uncased",
   "textattack/bert-base-uncased-RTE",
   "yoshitomo-matsubara/bert-base-uncased-rte",
   "Ruizhou/bert-base-uncased-finetuned-rte",
   "howey/bert-base-uncased-rte",
   "anirudh21/bert-base-uncased-finetuned-rte"]

/-- The model identifier list of the else branch (line 13). -/
def sst2Models : List String :=
  ["google-bert/bert-base-uncased",
   "aviator-neural/bert-base-uncased-sst2",
   "howey/bert-base-uncased-sst2",
   "yoshitomo-matsubara/bert-base-uncased-sst2",
   "ikevin98/bert-base-uncased-finetuned-sst2",
   "TehranNLP-org/bert-base-uncased-cls-sst2"]

/-- The dataset switch of lines 10-13, parametrised by the dataset name. -/
def modelsFor (dataset : String) : List String :=
  if dataset = "rte" then rteModels else sst2Models

/-- The f-string of line 22: directory passed to `save_pretrained`. -/
def saveDir (dataset split : String) : String :=
  "./artifacts/merged_weights_task_" ++ dataset ++ "_" ++ split

/-- The f-string of line 34: value of the record's "directory" field. -/
def recordDirectory (dataset split : String) : String :=
  "./artifacts/merged_weights_task_" ++ dataset ++ "_" ++ split

/-- The f-string of line 38: path of the JSON file handed to `open`. -/
def recordJsonPath (dataset split : String) : String :=
  "./artifacts/merged_weights_task_" ++ dataset ++ "_" ++ split ++ "/record.json"

/-- The record dict literal of lines 30-37: five fixed keys followed by the
spread of the accuracy mapping, evaluated as successive dict assignments. -/
def buildRecord (dataset split : String) (dt : ℚ) (accuracy : JDict) : JDict :=
  dictInsertMany
    (dictInsertMany []
      [("method", .str "task"),
       ("dataset", .str dataset),
       ("split", .str split),
       ("directory", .str (recordDirectory dataset split)),
       ("time", .num dt)])
    accuracy

/-- Observable steps of the script, in source order: the initial pipeline
construction (line 15), the two `time.time()` calls (lines 17 and 19), the
`mergecraft.task` call (line 18), the prints (lines 20, 24, 27), the
`save_pretrained` call (line 22), the `evaluate_glue_pipeline` call
(line 26) and the `json.dump` into the opened file (lines 38-39). -/
inductive Event where
  | pipelineInit (task model device framework : String)
  | timeCall (t : ℚ)
  | mergeCall (models : List String) (baseIndex : ℕ) (signs : Option (List ℤ)) (task : String)
  | printTimeElapsed (dt : ℚ)
  | savePretrained (dir model : String)
  | printMsg (s : String)
  | evaluateCall (dataset : String)
  | printEvalResult (accuracy : JDict)
  | jsonWrite (path : String) (record : JDict)

/-- The constructor of an event, with its payload erased. -/
inductive EventKind where
  | pipelineInit | timeCall | mergeCall | printTimeElapsed | savePretrained
  | printMsg | evaluateCall | printEvalResult | jsonWrite
deriving DecidableEq

/-- Erase an event's payload, keeping which step it is. -/
def Event.kind : Event → EventKind
  | .pipelineInit _ _ _ _ => .pipelineInit
  | .timeCall _ => .timeCall
  | .mergeCall _ _ _ _ => .mergeCall
  | .printTimeElapsed _ => .printTimeElapsed
  | .savePretrained _ _ => .savePretrained
  | .printMsg _ => .printMsg
  | .evaluateCall _ => .evaluateCall
  | .printEvalResult _ => .printEvalResult
  | .jsonWrite _ _ => .jsonWrite

/-- Results of the external collaborators for one run, each either a value
or a raised exception (modelled as an error message): the base-model
pipeline construction, the two wall-clock readings, the merge routine
(returning an opaque merged-model identity), the weight save, the
evaluation (returning the accuracy mapping of its result), and the file
write. -/
structure EnvE where
  load : Except String Unit
  tMergeStart : ℚ
  tMergeEnd : ℚ
  merge : Except String String
  save : Except String Unit
  evalRes : Except String JDict
  write : Except String Unit

/-- Collaborator results for a run in which no external call fails. -/
structure Env where
  tMergeStart : ℚ
  tMergeEnd : ℚ
  mergedModel : String
  accuracy : JDict

/-- View an all-successful environment as a fallible one. -/
def EnvE.ofPure (env : Env) : EnvE :=
  ⟨.ok (), env.tMergeStart, env.tMergeEnd, .ok env.mergedModel, .ok (),
   .ok env.accuracy, .ok ()⟩

/-- The script, lines 15-39, parametrised by the dataset and split
constants and by the collaborator results: it emits the event of each call
in source order and, exception semantics, stops at the first failing call
with its error. The second component is the written record on success and
the uncaught error otherwise. -/
def runScriptEWith (dataset split : String) (env : EnvE) :
    List Event × Except String JDict :=
  let models := modelsFor dataset
  let ev0 := [Event.pipelineInit "text-classification" (models.headD "") "cpu" "pt"]
  match env.load with
  | .error e => (ev0, .error e)
  | .ok _ =>
    let ev1 := ev0 ++ [Event.timeCall env.tMergeStart,
                       Event.mergeCall models 0 none "text-classification"]
    match env.merge with
    | .error e => (ev1, .error e)
    | .ok merged =>
      let dt := env.tMergeEnd - env.tMergeStart
      let ev2 := ev1 ++ [Event.timeCall env.tMergeEnd,
                         Event.printTimeElapsed dt,
                         Event.savePretrained (saveDir dataset split) merged]
      match env.save with
      | .error e => (ev2, .error e)
      | .ok _ =>
        let ev3 := ev2 ++ [Event.printMsg "Evaluating the merged model",
                           Event.evaluateCall dataset]
        match env.evalRes with
        | .error e => (ev3, .error e)
        | .ok acc =>
          let record := buildRecord dataset split dt acc
          let ev4 := ev3 ++ [Event.printEvalResult acc,
                             Event.jsonWrite (recordJsonPath dataset split) record]
          match env.write with
          | .error e => (ev4, .error e)
          | .ok _ => (ev4, .ok record)

/-- The script as written with its constants, line 7 and line 8. -/
def runScript (env : EnvE) : List Event × Except String JDict :=
  runScriptEWith DATASET SPLIT env

/-- The ten-event trace of a run in which no call fails, computed from the
collaborator results (failed results contribute defaults; only the events
before a failure are compared with it). -/
def okTraceE (dataset split : String) (env : EnvE) : List Event :=
  let models := modelsFor dataset
  let merged := env.merge.toOption.getD ""
  let acc := env.evalRes.toOption.getD []
  let dt := env.tMergeEnd - env.tMergeStart
  [Event.pipelineInit "text-classification" (models.headD "") "cpu" "pt",
   Event.timeCall env.tMergeStart,
   Event.mergeCall models 0 none "text-classification",
   Event.timeCall env.tMergeEnd,
   Event.printTimeElapsed dt,
   Event.savePretrained (saveDir dataset split) merged,
   Event.printMsg "Evaluating the merged model",
   Event.evaluateCall dataset,
   Event.printEvalResult acc,
   Event.jsonWrite (recordJsonPath dataset split) (buildRecord dataset split dt acc)]

/-- The error of the first failing call in source order, if any. -/
def firstFailure (env : EnvE) : Option String :=
  match env.load with
  | .error e => some e
  | .ok _ =>
    match env.merge with
    | .error e => some e
    | .ok _ =>
      match env.save with
      | .error e => some e
      | .ok _ =>
        match env.evalRes with
        | .error e => some e
        | .ok _ =>
          match env.write with
          | .error e => some e
          | .ok _ => none

/-- How many call events the run emits before stopping: every call up to
and including the first failing one, all ten when none fails. -/
def attemptedEvents (env : EnvE) : ℕ :=
  match env.load with
  | .error _ => 1
  | .ok _ =>
    match env.merge with
    | .error _ => 3
    | .ok _ =>
      match env.save with
      | .error _ => 6
      | .ok _ =>
        match env.evalRes with
        | .error _ => 8
        | .ok _ => 10

/-- The script with line 15 (the initial unmerged pipeline construction)
removed; everything else is unchanged. -/
def runScriptNoInitEWith (dataset split : String) (env : EnvE) :
    List Event × Except String JDict :=
  let models := modelsFor dataset
  let ev1 := [Event.timeCall env.tMergeStart,
              Event.mergeCall models 0 none "text-classification"]
  match env.merge with
  | .error e => (ev1, .error e)
  | .ok merged =>
    let dt := env.tMergeEnd - env.tMergeStart
    let ev2 := ev1 ++ [Event.timeCall env.tMergeEnd,
                       Event.printTimeElapsed dt,
                       Event.savePretrained (saveDir dataset split) merged]
    match env.save with
    | .error e => (ev2, .error e)
    | .ok _ =>
      let ev3 := ev2 ++ [Event.printMsg "Evaluating the merged model",
                         Event.evaluateCall dataset]
      match env.evalRes with
      | .error e => (ev3, .error e)
      | .ok acc =>
        let record := buildRecord dataset split dt acc
        let ev4 := ev3 ++ [Event.printEvalResult acc,
                           Event.jsonWrite (recordJsonPath dataset split) record]
        match env.write with
        | .error e => (ev4, .error e)
        | .ok _ => (ev4, .ok record)

/-- Test for a `save_pretrained` event. -/
def isSaveEvent : Event → Bool
  | .savePretrained _ _ => true
  | _ => false

/-- Test for a `json.dump` file-write event. -/
def isWriteEvent : Event → Bool
  | .jsonWrite _ _ => true
  | _ => false

/-- Test for an `evaluate_glue_pipeline` call event. -/
def isEvalEvent : Event → Bool
  | .evaluateCall _ => true
  | _ => false

/-- The number of weight-save events in a trace. -/
def countSaves (tr : List Event) : ℕ := (tr.filter isSaveEvent).length

/-- The number of JSON file-write events in a trace. -/
def countWrites (tr : List Event) : ℕ := (tr.filter isWriteEvent).length

/-- The number of evaluation-call events in a trace. -/
def countEvals (tr : List Event) : ℕ := (tr.filter isEvalEvent).length

/-- The externally visible outputs of a trace: weight saves, evaluation
calls and file writes, in order, with their payloads. -/
def outputEvents (tr : List Event) : List Event :=
  tr.filter fun e => isSaveEvent e || isWriteEvent e || isEvalEvent e

theorem dictInsertMany_cons (d : JDict) (kv : String × JValue) (kvs : JDict) :
    dictInsertMany d (kv :: kvs) = dictInsertMany (dictInsert d kv.1 kv.2) kvs := rfl

theorem dictLookup_dictInsert (d : JDict) (k' k : String) (v : JValue) :
    dictLookup (dictInsert d k' v) k = if k' = k then some v else dictLookup d k := by
  induction d with
  | nil => simp [dictInsert, dictLookup]
  | cons hd tl ih =>
    obtain ⟨k₀, v₀⟩ := hd
    by_cases h₀ : k₀ = k'
    · subst h₀
      by_cases h₁ : k₀ = k <;> simp [dictInsert, dictLookup, h₁]
    · have h₀' : k' ≠ k₀ := fun h => h₀ h.symm
      by_cases h₁ : k₀ = k
      · subst h₁
        simp [dictInsert, dictLookup, h₀, h₀']
      · simp [dictInsert, dictLookup, h₀, h₁, ih]

theorem dictLookup_dictInsertMany_not_mem (kvs : JDict) (d : JDict) (k : String)
    (h : k ∉ kvs.map Prod.fst) :
    dictLookup (dictInsertMany d kvs) k = dictLookup d k := by
  induction kvs generalizing d with
  | nil => rfl
  | cons kv kvs ih =>
    simp only [List.map_cons, List.mem_cons, not_or] at h
    rw [dictInsertMany_cons, ih _ h.2, dictLookup_dictInsert,
      if_neg (fun hh => h.1 hh.symm)]

theorem dictLookup_dictInsertMany_mem (kvs : JDict) :
    ∀ (d : JDict) (k : String) (v : JValue),
      (kvs.map Prod.fst).Nodup → dictLookup kvs k = some v →
      dictLookup (dictInsertMany d kvs) k = some v := by
  induction kvs with
  | nil =>
    intro d k v _ h
    simp [dictLookup] at h
  | cons kv kvs ih =>
    intro d k v hnd h
    obtain ⟨k₀, v₀⟩ := kv
    simp only [List.map_cons, List.nodup_cons] at hnd
    by_cases h₀ : k₀ = k
    · subst h₀
      rw [dictInsertMany_cons, dictLookup_dictInsertMany_not_mem kvs _ _ hnd.1,
        dictLookup_dictInsert, if_pos rfl]
      simpa [dictLookup] using h
    · simp only [dictLookup, if_neg h₀] at h
      rw [dictInsertMany_cons]
      exact ih _ _ _ hnd.2 h

theorem dictLookup_dictInsertMany_isSome (kvs : JDict) (d : JDict) (k : String) :
    (dictLookup (dictInsertMany d kvs) k).isSome ↔
      (dictLookup d k).isSome ∨ k ∈ kvs.map Prod.fst := by
  induction kvs generalizing d with
  | nil => simp [dictInsertMany]
  | cons kv kvs ih =>
    rw [dictInsertMany_cons, ih, dictLookup_dictInsert]
    by_cases h : kv.1 = k
    · subst h
      simp [List.mem_cons]
    · have h' : ¬ k = kv.1 := fun hh => h hh.symm
      rw [if_neg h]
      simp only [List.map_cons, List.mem_cons, h', false_or]

theorem buildRecord_unfold (dataset split : String) (dt : ℚ) (accuracy : JDict) :
    buildRecord dataset split dt accuracy =
      dictInsertMany
        [("method", JValue.str "task"), ("dataset", JValue.str dataset),
         ("split", JValue.str split),
         ("directory", JValue.str (recordDirectory dataset split)),
         ("time", JValue.num dt)] accuracy := rfl

theorem fixed_lookup_isSome (dataset split : String) (dt : ℚ) (k : String) :
    (dictLookup
      [("method", JValue.str "task"), ("dataset", JValue.str dataset),
       ("split", JValue.str split),
       ("directory", JValue.str (recordDirectory dataset split)),
       ("time", JValue.num dt)] k).isSome ↔
      (k = "method" ∨ k = "dataset" ∨ k = "split" ∨ k = "directory" ∨ k = "time") := by
  simp only [dictLookup]
  split_ifs <;> simp_all [eq_comm]

/-- C1: the record of lines 30-37 is a single flat object. Its key set is
exactly the five fixed keys plus the keys of the accuracy mapping spread at
top level, and at the spec's concrete instance (method "task", dataset
"rte", split "validation", time 1.23, accuracy mapping with one key
"accuracy" valued 0.81) it is literally the six-entry flat object, with the
"accuracy" key bound to the number 0.81 and not to a nested object. -/
theorem record_is_flat (dataset split : String) (dt : ℚ) (accuracy : JDict) :
    (∀ k : String,
      (dictLookup (buildRecord dataset split dt accuracy) k).isSome ↔
        (k = "method" ∨ k = "dataset" ∨ k = "split" ∨ k = "directory" ∨ k = "time"
          ∨ k ∈ accuracy.map Prod.fst)) ∧
    buildRecord "rte" "validation" (123/100) [("accuracy", JValue.num (81/100))] =
      [("method", JValue.str "task"), ("dataset", JValue.str "rte"),
       ("split", JValue.str "validation"),
       ("directory", JValue.str "./artifacts/merged_weights_task_rte_validation"),
       ("time", JValue.num (123/100)),
       ("accuracy", JValue.num (81/100))] := by
  constructor
  · intro k
    rw [buildRecord_unfold, dictLookup_dictInsertMany_isSome,
      fixed_lookup_isSome dataset split dt k]
    tauto
  · rfl

/-- C2: an accuracy-mapping key equal to one of the five fixed field names
overwrites that fixed field in the final record, because the spread of the
accuracy mapping is applied after the fixed keys in the dict literal. -/
theorem accuracy_key_overwrites_fixed_field (dataset split : String) (dt : ℚ)
    (accuracy : JDict) (k : String) (v : JValue)
    (hk : k = "method" ∨ k = "dataset" ∨ k = "split" ∨ k = "directory" ∨ k = "time")
    (hnd : (accuracy.map Prod.fst).Nodup)
    (hv : dictLookup accuracy k = some v) :
    dictLookup (buildRecord dataset split dt accuracy) k = some v := by
  rw [buildRecord_unfold]
  exact dictLookup_dictInsertMany_mem accuracy _ k v hnd hv

/-- Witness for C2: a metric literally named "method" replaces the fixed
"method" field in the record. -/
theorem accuracy_key_overwrites_fixed_field_witness :
    dictLookup
      (buildRecord "rte" "validation" (123/100) [("method", JValue.str "overridden")])
      "method" = some (JValue.str "overridden") :=
  accuracy_key_overwrites_fixed_field "rte" "validation" (123/100)
    [("method", JValue.str "overridden")] "method" (JValue.str "overridden")
    (Or.inl rfl) (by simp) rfl

/-- C3: every dataset name other than "rte", the empty string included,
selects the six SST2 model identifiers, while the run's record still
carries the given dataset name in its "dataset" field. -/
theorem non_rte_dataset_falls_back_to_sst2 (dataset split : String) (env : Env)
    (hdat : dataset ≠ "rte")
    (hacc : "dataset" ∉ env.accuracy.map Prod.fst) :
    modelsFor dataset =
      ["google-bert/bert-base-uncased", "aviator-neural/bert-base-uncased-sst2",
       "howey/bert-base-uncased-sst2", "yoshitomo-matsubara/bert-base-uncased-sst2",
       "ikevin98/bert-base-uncased-finetuned-sst2",
       "TehranNLP-org/bert-base-uncased-cls-sst2"] ∧
    (runScriptEWith dataset split (EnvE.ofPure env)).2 =
      Except.ok (buildRecord dataset split (env.tMergeEnd - env.tMergeStart)
        env.accuracy) ∧
    dictLookup
      (buildRecord dataset split (env.tMergeEnd - env.tMergeStart) env.accuracy)
      "dataset" = some (JValue.str dataset) := by
  refine ⟨?_, rfl, ?_⟩
  · rw [modelsFor, if_neg hdat]
    rfl
  · rw [buildRecord_unfold, dictLookup_dictInsertMany_not_mem _ _ _ hacc]
    simp [dictLookup]

/-- Witness for C3 at the empty dataset name: the selector silently yields
the SST2 list while the record's "dataset" field holds the empty string. -/
theorem non_rte_dataset_falls_back_to_sst2_witness :
    modelsFor "" =
      ["google-bert/bert-base-uncased", "aviator-neural/bert-base-uncased-sst2",
       "howey/bert-base-uncased-sst2", "yoshitomo-matsubara/bert-base-uncased-sst2",
       "ikevin98/bert-base-uncased-finetuned-sst2",
       "TehranNLP-org/bert-base-uncased-cls-sst2"] ∧
    (runScriptEWith "" "validation" (EnvE.ofPure ⟨0, 1, "merged", []⟩)).2 =
      Except.ok (buildRecord "" "validation" (1 - 0) []) ∧
    dictLookup (buildRecord "" "validation" (1 - 0) []) "dataset" =
      some (JValue.str "") :=
  non_rte_dataset_falls_back_to_sst2 "" "validation" ⟨0, 1, "merged", []⟩
    (by decide) (by simp)

/-- C4: for dataset name "rte" the selector yields exactly the six RTE
model identifiers in order, and the identifier at index 0 is the model the
initial unmerged pipeline of line 15 is constructed from. -/
theorem rte_models_in_order_and_base (split : String) (env : Env) :
    modelsFor "rte" =
      ["google-bert/bert-base-uncased", "textattack/bert-base-uncased-RTE",
       "yoshitomo-matsubara/bert-base-uncased-rte",
       "Ruizhou/bert-base-uncased-finetuned-rte", "howey/bert-base-uncased-rte",
       "anirudh21/bert-base-uncased-finetuned-rte"] ∧
    (modelsFor "rte").headD "" = "google-bert/bert-base-uncased" ∧
    (runScriptEWith "rte" split (EnvE.ofPure env)).1.head? =
      some (Event.pipelineInit "text-classification" "google-bert/bert-base-uncased"
        "cpu" "pt") :=
  ⟨rfl, rfl, rfl⟩

/-- C5: the three path expressions of lines 22, 34 and 38 all denote the
same deterministic directory string, which at the script's constants is
"./artifacts/merged_weights_task_rte_validation"; the record.json path is
that directory plus "/record.json". -/
theorem output_directory_deterministic (dataset split : String) :
    saveDir dataset split =
      "./artifacts/merged_weights_task_" ++ dataset ++ "_" ++ split ∧
    recordDirectory dataset split = saveDir dataset split ∧
    recordJsonPath dataset split = saveDir dataset split ++ "/record.json" ∧
    saveDir "rte" "validation" = "./artifacts/merged_weights_task_rte_validation" :=
  ⟨rfl, rfl, rfl, rfl⟩

/-- C6: the record's "time" field is exactly the difference of the two
wall-clock readings, which in the trace are taken immediately before and
immediately after the merge call and around nothing else; and the control
path of the run (the sequence of step kinds) is one constant list, so no
branch or control decision depends on the measured value. -/
theorem time_field_measures_merge_only (dataset split : String) (env : Env)
    (hacc : "time" ∉ env.accuracy.map Prod.fst) :
    dictLookup
      (buildRecord dataset split (env.tMergeEnd - env.tMergeStart) env.accuracy)
      "time" = some (JValue.num (env.tMergeEnd - env.tMergeStart)) ∧
    (runScriptEWith dataset split (EnvE.ofPure env)).2 =
      Except.ok (buildRecord dataset split (env.tMergeEnd - env.tMergeStart)
        env.accuracy) ∧
    (∃ pre post : List Event,
      (runScriptEWith dataset split (EnvE.ofPure env)).1 =
        pre ++ (Event.timeCall env.tMergeStart ::
          Event.mergeCall (modelsFor dataset) 0 none "text-classification" ::
          Event.timeCall env.tMergeEnd :: post)) ∧
    (runScriptEWith dataset split (EnvE.ofPure env)).1.map Event.kind =
      [EventKind.pipelineInit, EventKind.timeCall, EventKind.mergeCall,
       EventKind.timeCall, EventKind.printTimeElapsed, EventKind.savePretrained,
       EventKind.printMsg, EventKind.evaluateCall, EventKind.printEvalResult,
       EventKind.jsonWrite] := by
  refine ⟨?_, rfl,
    ⟨[Event.pipelineInit "text-classification" ((modelsFor dataset).headD "")
        "cpu" "pt"],
     [Event.printTimeElapsed (env.tMergeEnd - env.tMergeStart),
      Event.savePretrained (saveDir dataset split) env.mergedModel,
      Event.printMsg "Evaluating the merged model",
      Event.evaluateCall dataset,
      Event.printEvalResult env.accuracy,
      Event.jsonWrite (recordJsonPath dataset split)
        (buildRecord dataset split (env.tMergeEnd - env.tMergeStart) env.accuracy)],
     rfl⟩, rfl⟩
  rw [buildRecord_unfold, dictLookup_dictInsertMany_not_mem _ _ _ hacc]
  simp [dictLookup]

/-- Witness for C6 at concrete readings 2 and 7 around the merge: the
"time" field holds 5. -/
theorem time_field_measures_merge_only_witness :
    dictLookup (buildRecord "rte" "validation" ((7 : ℚ) - 2) []) "time" =
      some (JValue.num ((7 : ℚ) - 2)) :=
  (time_field_measures_merge_only "rte" "validation" ⟨2, 7, "merged", []⟩
    (by simp)).1

/-- C7: every run without a failing call performs the ten steps in one
fixed order, with the merge call before the weight save, the save before
the evaluation call, and the evaluation call before the single JSON write;
there is exactly one save event, one evaluation event and one write event,
and the written record is the run's result. -/
theorem script_sequential_one_save_one_write (dataset split : String) (env : Env) :
    (runScriptEWith dataset split (EnvE.ofPure env)).1 =
      [Event.pipelineInit "text-classification" ((modelsFor dataset).headD "")
         "cpu" "pt",
       Event.timeCall env.tMergeStart,
       Event.mergeCall (modelsFor dataset) 0 none "text-classification",
       Event.timeCall env.tMergeEnd,
       Event.printTimeElapsed (env.tMergeEnd - env.tMergeStart),
       Event.savePretrained (saveDir dataset split) env.mergedModel,
       Event.printMsg "Evaluating the merged model",
       Event.evaluateCall dataset,
       Event.printEvalResult env.accuracy,
       Event.jsonWrite (recordJsonPath dataset split)
         (buildRecord dataset split (env.tMergeEnd - env.tMergeStart) env.accuracy)] ∧
    countSaves (runScriptEWith dataset split (EnvE.ofPure env)).1 = 1 ∧
    countWrites (runScriptEWith dataset split (EnvE.ofPure env)).1 = 1 ∧
    countEvals (runScriptEWith dataset split (EnvE.ofPure env)).1 = 1 ∧
    (runScriptEWith dataset split (EnvE.ofPure env)).2 =
      Except.ok (buildRecord dataset split (env.tMergeEnd - env.tMergeStart)
        env.accuracy) :=
  ⟨rfl, rfl, rfl, rfl, rfl⟩

/-- C9: on every run the merge call receives base index 0 and a model list
of length six, so the base index is a valid position in the list. -/
theorem merge_base_index_valid (dataset split : String) (env : Env) :
    (modelsFor dataset).length = 6 ∧
    0 < (modelsFor dataset).length ∧
    (runScriptEWith dataset split (EnvE.ofPure env)).1[2]? =
      some (Event.mergeCall (modelsFor dataset) 0 none "text-classification") := by
  have h6 : (modelsFor dataset).length = 6 := by
    by_cases h : dataset = "rte" <;> simp [modelsFor, h, rteModels, sst2Models]
  refine ⟨h6, ?_, rfl⟩
  rw [h6]
  decide

/-- C10: the initial unmerged pipeline of line 15 is overwritten by the
merge result before any output is produced: the script with that line
removed emits the same save, evaluation and write events with the same
payloads, returns the same record, and its trace is the original trace
without the construction event. -/
theorem initial_pipeline_removal_output_equivalent (dataset split : String)
    (env : Env) :
    (runScriptNoInitEWith dataset split (EnvE.ofPure env)).2 =
      (runScriptEWith dataset split (EnvE.ofPure env)).2 ∧
    outputEvents (runScriptNoInitEWith dataset split (EnvE.ofPure env)).1 =
      outputEvents (runScriptEWith dataset split (EnvE.ofPure env)).1 ∧
    (runScriptNoInitEWith dataset split (EnvE.ofPure env)).1 =
      ((runScriptEWith dataset split (EnvE.ofPure env)).1).drop 1 :=
  ⟨rfl, rfl, rfl⟩

/-- C8: the script has no error handling: whenever some external call
fails, the first such failure is the run's result, unchanged, and the trace
stops at the failing call: it is the first `attemptedEvents` events of the
no-failure trace, so no later step runs and nothing is retried. -/
theorem uncaught_failure_stops_script (dataset split : String) (env : EnvE)
    (e : String) (h : firstFailure env = some e) :
    (runScriptEWith dataset split env).2 = Except.error e ∧
    (runScriptEWith dataset split env).1 =
      (okTraceE dataset split env).take (attemptedEvents env) := by
  obtain ⟨load, t0, t1, merge, save, evalRes, write⟩ := env
  cases load <;> cases merge <;> cases save <;> cases evalRes <;> cases write <;>
    simp only [firstFailure, Option.some.injEq, reduceCtorEq] at h <;>
    first
      | exact absurd h (by simp)
      | (subst h; exact ⟨rfl, rfl⟩)

/-- Witness for C8: when the merge routine raises, the run ends with that
very error after the first three events, the save, evaluation and write
steps never happening. -/
theorem uncaught_failure_stops_script_witness :
    (runScriptEWith "rte" "validation"
      ⟨Except.ok (), 2, 7, Except.error "merge failed", Except.ok (),
       Except.ok [], Except.ok ()⟩).2 = Except.error "merge failed" ∧
    (runScriptEWith "rte" "validation"
      ⟨Except.ok (), 2, 7, Except.error "merge failed", Except.ok (),
       Except.ok [], Except.ok ()⟩).1 =
      (okTraceE "rte" "validation"
        ⟨Except.ok (), 2, 7, Except.error "merge failed", Except.ok (),
         Except.ok [], Except.ok ()⟩).take
        (attemptedEvents
          ⟨Except.ok (), 2, 7, Except.error "merge failed", Except.ok (),
           Except.ok [], Except.ok ()⟩) :=
  uncaught_failure_stops_script "rte" "validation"
    ⟨Except.ok (), 2, 7, Except.error "merge failed", Except.ok (),
     Except.ok [], Except.ok ()⟩ "merge failed" rfl

end IlharcoEditing
